import Mathlib

/-!
Verification of the chain-configuration and consensus-exception registry
slice of namecoin-core (src/chainparams.h, src/rpc/blockchain.h).

The source slice is interface plus inline bodies.  Declarations whose
bodies live in translation units outside the slice (chainparams.cpp,
rpc/blockchain.cpp, validation.cpp) are modelled from the specification
document; each such definition carries a doc comment starting
"Modelled from the spec:".  Everything else is translated directly from
the header source.

Conventions of the shallow embedding: uint256 values are Nat, CAmount and
block heights are Int where the C++ type is signed, `std::map<K,V>` is an
association list with exact-key lookup and an insert that never
overwrites an existing key (the semantics of std::map::insert), and
`double` quantities are modelled as exact rationals.
-/

namespace Namecoin

/-- Exact-key lookup in the association-list model of std::map. -/
def mapFind? {K V : Type} [DecidableEq K] : List (K × V) → K → Option V
  | [], _ => none
  | (k', v) :: rest, k => if k = k' then some v else mapFind? rest k

/-- Model of std::map::insert: a no-op when the key is already present,
otherwise the binding is added. -/
def mapInsert {K V : Type} [DecidableEq K] (m : List (K × V)) (k : K) (v : V) :
    List (K × V) :=
  match mapFind? m k with
  | some _ => m
  | none => (k, v) :: m

/-- Keys of the association-list model of std::map. -/
def mapKeys {K V : Type} (m : List (K × V)) : List K := m.map Prod.fst

/-- Largest key of the map, the value std::map::rbegin dereferences; none
on the empty map, where the C++ dereference is undefined behaviour. -/
def maxKey {V : Type} : List (Int × V) → Option Int
  | [] => none
  | (k, _) :: rest =>
    some (match maxKey rest with
          | none => k
          | some m => max k m)

/-- MapCheckpoints, std::map from height to uint256 block hash. -/
abbrev MapCheckpoints := List (Int × Nat)

/-- CCheckpointData from chainparams.h. -/
structure CCheckpointData where
  mapCheckpoints : MapCheckpoints
deriving DecidableEq

/-- GetHeight from chainparams.h: the height of the final (largest-key)
checkpoint, via std::map::rbegin; defined only on a non-empty table. -/
def CCheckpointData.GetHeight (cd : CCheckpointData) : Option Int :=
  maxKey cd.mapCheckpoints

/-- AssumeutxoData from chainparams.h: expected hash of the deserialized
UTXO set and the hardcoded cumulative transaction count. -/
structure AssumeutxoData where
  hash_serialized : Nat
  nChainTx : Nat
deriving DecidableEq

/-- MapAssumeutxo, std::map from height to AssumeutxoData. -/
abbrev MapAssumeutxo := List (Int × AssumeutxoData)

/-- ChainTxData from chainparams.h; the double dTxRate is modelled as an
exact rational. -/
structure ChainTxData where
  nTime : Int
  nTxCount : Int
  dTxRate : ℚ
deriving DecidableEq

/-- BugType from chainparams.h. -/
inductive BugType where
  | BUG_FULLY_APPLY
  | BUG_IN_UTXO
  | BUG_FULLY_IGNORE
deriving DecidableEq, Repr

/-- Base58Type from chainparams.h. -/
inductive Base58Type where
  | PUBKEY_ADDRESS
  | SCRIPT_ADDRESS
  | SECRET_KEY
  | EXT_PUBLIC_KEY
  | EXT_SECRET_KEY
deriving DecidableEq, Repr

/-- The five byte-sequence entries of the base58Prefixes array, one per
Base58Type value. -/
structure Base58PrefixTable where
  pubkey_address : List Nat
  script_address : List Nat
  secret_key : List Nat
  ext_public_key : List Nat
  ext_secret_key : List Nat
deriving DecidableEq

/-- Network enum of netaddress.h (external to the slice); only NET_I2P is
distinguished by the code under verification. -/
inductive Network where
  | NET_UNROUTABLE
  | NET_IPV4
  | NET_IPV6
  | NET_ONION
  | NET_I2P
  | NET_CJDNS
  | NET_INTERNAL
deriving DecidableEq, Repr

/-- I2P SAM 3.1 port constant, declared in netaddress.h outside the
slice; its concrete value is immaterial to the claims. -/
def I2P_SAM31_PORT : Nat := 7656

/-- Consensus::Params is an external collaborator; only the
fPowNoRetargeting flag is read by the slice (MineBlocksOnDemand). -/
structure ConsensusParams where
  fPowNoRetargeting : Bool
deriving DecidableEq

/-- CBlock is an external collaborator (primitives/block.h); modelled
opaquely by its header hash. -/
structure CBlock where
  headerHash : Nat
deriving DecidableEq

/-- CChainParams from chainparams.h: the fields of the class, with
std::map members as association lists. -/
structure CChainParams where
  consensus : ConsensusParams
  pchMessageStart : List Nat
  nDefaultPort : Nat
  nPruneAfterHeight : Nat
  m_assumed_blockchain_size : Nat
  m_assumed_chain_state_size : Nat
  vSeeds : List String
  base58Prefixes : Base58PrefixTable
  bech32_hrp : String
  strNetworkID : String
  genesis : CBlock
  vFixedSeeds : List Nat
  fDefaultConsistencyChecks : Bool
  fRequireStandard : Bool
  m_is_test_chain : Bool
  m_is_mockable_chain : Bool
  checkpointData : CCheckpointData
  m_assumeutxo_data : MapAssumeutxo
  chainTxData : ChainTxData
  mapHistoricBugs : List ((Nat × Nat) × BugType)
deriving DecidableEq

/-- GetConsensus accessor (const) from chainparams.h. -/
def CChainParams.GetConsensus (p : CChainParams) : ConsensusParams := p.consensus

/-- MessageStart accessor (const) from chainparams.h. -/
def CChainParams.MessageStart (p : CChainParams) : List Nat := p.pchMessageStart

/-- GetDefaultPort accessor (const) from chainparams.h. -/
def CChainParams.GetDefaultPort (p : CChainParams) : Nat := p.nDefaultPort

/-- GetDefaultPort(Network) overload from chainparams.h: the I2P SAM
port for NET_I2P, the configured default port otherwise. -/
def CChainParams.GetDefaultPortNet (p : CChainParams) (net : Network) : Nat :=
  if net = Network.NET_I2P then I2P_SAM31_PORT else p.GetDefaultPort

/-- GetDefaultPort(std::string) overload from chainparams.h.  The call
a.SetSpecial(addr) followed by a.GetNetwork() is external (netaddress.h)
and is passed in as a parse oracle: some net when addr parses as a
special address of network net, none otherwise. -/
def CChainParams.GetDefaultPortAddr (p : CChainParams)
    (setSpecial : String → Option Network) (addr : String) : Nat :=
  match setSpecial addr with
  | some net => p.GetDefaultPortNet net
  | none => p.GetDefaultPort

/-- GenesisBlock accessor (const) from chainparams.h. -/
def CChainParams.GenesisBlock (p : CChainParams) : CBlock := p.genesis

/-- DefaultConsistencyChecks accessor (const) from chainparams.h. -/
def CChainParams.DefaultConsistencyChecks (p : CChainParams) : Bool :=
  p.fDefaultConsistencyChecks

/-- RequireStandard accessor (const) from chainparams.h. -/
def CChainParams.RequireStandard (p : CChainParams) : Bool := p.fRequireStandard

/-- IsTestChain accessor (const) from chainparams.h. -/
def CChainParams.IsTestChain (p : CChainParams) : Bool := p.m_is_test_chain

/-- IsMockableChain accessor (const) from chainparams.h. -/
def CChainParams.IsMockableChain (p : CChainParams) : Bool := p.m_is_mockable_chain

/-- PruneAfterHeight accessor (const) from chainparams.h. -/
def CChainParams.PruneAfterHeight (p : CChainParams) : Nat := p.nPruneAfterHeight

/-- AssumedBlockchainSize accessor (const) from chainparams.h. -/
def CChainParams.AssumedBlockchainSize (p : CChainParams) : Nat :=
  p.m_assumed_blockchain_size

/-- AssumedChainStateSize accessor (const) from chainparams.h. -/
def CChainParams.AssumedChainStateSize (p : CChainParams) : Nat :=
  p.m_assumed_chain_state_size

/-- MineBlocksOnDemand accessor (const) from chainparams.h. -/
def CChainParams.MineBlocksOnDemand (p : CChainParams) : Bool :=
  p.consensus.fPowNoRetargeting

/-- NetworkIDString accessor (const) from chainparams.h. -/
def CChainParams.NetworkIDString (p : CChainParams) : String := p.strNetworkID

/-- DNSSeeds accessor (const) from chainparams.h. -/
def CChainParams.DNSSeeds (p : CChainParams) : List String := p.vSeeds

/-- Bech32HRP accessor (const) from chainparams.h. -/
def CChainParams.Bech32HRP (p : CChainParams) : String := p.bech32_hrp

/-- FixedSeeds accessor (const) from chainparams.h. -/
def CChainParams.FixedSeeds (p : CChainParams) : List Nat := p.vFixedSeeds

/-- Checkpoints accessor (const) from chainparams.h. -/
def CChainParams.Checkpoints (p : CChainParams) : CCheckpointData := p.checkpointData

/-- Assumeutxo accessor (const) from chainparams.h. -/
def CChainParams.Assumeutxo (p : CChainParams) : MapAssumeutxo := p.m_assumeutxo_data

/-- TxData accessor (const) from chainparams.h. -/
def CChainParams.TxData (p : CChainParams) : ChainTxData := p.chainTxData

/-- Modelled from the spec: the body of IsHistoricBug is in
chainparams.cpp, outside the slice.  Section 4.2 defines it as a pure
exact-key lookup of the (height, txid) pair in the per-network table
mapHistoricBugs, with no wildcard or range matching; the C++ bool plus
out-parameter pair is rendered as an Option. -/
def CChainParams.IsHistoricBug (p : CChainParams) (txid : Nat) (nHeight : Nat) :
    Option BugType :=
  mapFind? p.mapHistoricBugs (nHeight, txid)

/-- addBug from chainparams.h: insert a (height, txid) binding into the
historic-bug map through std::map::insert, which never overwrites.  The
C++ receives the txid as a hex literal and converts it through uint256S
(util code outside the slice); the model receives the converted value. -/
def CChainParams.addBug (p : CChainParams) (nHeight : Nat) (txid : Nat)
    (ty : BugType) : CChainParams :=
  { p with mapHistoricBugs := mapInsert p.mapHistoricBugs (nHeight, txid) ty }

/-- SnapshotMetadata, modelled from the spec (section 4.4): height of the
snapshot and the hash computed over its serialized byte stream. -/
structure SnapshotMetadata where
  height : Int
  hash : Nat
deriving DecidableEq

/-- SnapshotError taxonomy from the spec (section 7). -/
inductive SnapshotError where
  | ChainstateBusy
  | IoError
  | InvalidHeight
  | UntrustedSnapshot
deriving DecidableEq, Repr

/-- Modelled from the spec: the snapshot-validation path lives in
validation code outside the slice.  Section 4.4: the call succeeds only
if the assumeutxo table has an entry at exactly metadata.height whose
expected serialized hash equals metadata.hash; otherwise it fails with
UntrustedSnapshot, with no advisory mode. -/
def validate_against_registry (m : SnapshotMetadata) (reg : MapAssumeutxo) :
    Except SnapshotError Unit :=
  match mapFind? reg m.height with
  | some e =>
    if e.hash_serialized = m.hash then Except.ok ()
    else Except.error SnapshotError.UntrustedSnapshot
  | none => Except.error SnapshotError.UntrustedSnapshot

/-- ConfigError taxonomy from the spec (section 7). -/
inductive ConfigError where
  | UnsupportedNetwork
deriving DecidableEq, Repr

/-- The statically known network identifiers (spec section 6). -/
def knownNetworks : List String := ["main", "test", "signet", "regtest"]

/-- Modelled from the spec: the per-network builders live in
chainparams.cpp, outside the slice.  Concrete table contents are
representative; what the spec fixes is the shape: a non-empty checkpoint
table per network (an empty table is a construction error), per-network
assumeutxo and historic-bug tables, and a per-network ChainTxData
anchor. -/
def mainParams : CChainParams :=
  { consensus := { fPowNoRetargeting := false }
    pchMessageStart := [249, 190, 180, 254]
    nDefaultPort := 8334
    nPruneAfterHeight := 100000
    m_assumed_blockchain_size := 10
    m_assumed_chain_state_size := 1
    vSeeds := ["seed.namecoin.org"]
    base58Prefixes :=
      { pubkey_address := [52], script_address := [13], secret_key := [180]
        ext_public_key := [4, 136, 178, 30], ext_secret_key := [4, 136, 173, 228] }
    bech32_hrp := "nc"
    strNetworkID := "main"
    genesis := { headerHash := 70 }
    vFixedSeeds := [1, 2, 3]
    fDefaultConsistencyChecks := false
    fRequireStandard := true
    m_is_test_chain := false
    m_is_mockable_chain := false
    checkpointData := { mapCheckpoints := [(0, 70), (2016, 71), (19200, 72)] }
    m_assumeutxo_data := []
    chainTxData := { nTime := 1607986972, nTxCount := 4415556, dTxRate := 2 }
    mapHistoricBugs :=
      [((98423, 101), BugType.BUG_FULLY_IGNORE),
       ((139872, 102), BugType.BUG_IN_UTXO),
       ((139936, 103), BugType.BUG_FULLY_IGNORE)] }

/-- Modelled from the spec: testnet builder, see mainParams. -/
def testParams : CChainParams :=
  { consensus := { fPowNoRetargeting := false }
    pchMessageStart := [250, 191, 181, 254]
    nDefaultPort := 18334
    nPruneAfterHeight := 1000
    m_assumed_blockchain_size := 2
    m_assumed_chain_state_size := 1
    vSeeds := ["dnsseed.test.namecoin.webbtc.com"]
    base58Prefixes :=
      { pubkey_address := [111], script_address := [196], secret_key := [239]
        ext_public_key := [4, 53, 135, 207], ext_secret_key := [4, 53, 131, 148] }
    bech32_hrp := "tn"
    strNetworkID := "test"
    genesis := { headerHash := 80 }
    vFixedSeeds := [4, 5]
    fDefaultConsistencyChecks := false
    fRequireStandard := false
    m_is_test_chain := true
    m_is_mockable_chain := false
    checkpointData := { mapCheckpoints := [(0, 80), (2016, 81)] }
    m_assumeutxo_data := []
    chainTxData := { nTime := 1607986972, nTxCount := 200000, dTxRate := 1 }
    mapHistoricBugs := [] }

/-- Modelled from the spec: signet builder, see mainParams. -/
def signetParams : CChainParams :=
  { consensus := { fPowNoRetargeting := false }
    pchMessageStart := [10, 3, 207, 64]
    nDefaultPort := 38334
    nPruneAfterHeight := 1000
    m_assumed_blockchain_size := 1
    m_assumed_chain_state_size := 0
    vSeeds := []
    base58Prefixes :=
      { pubkey_address := [111], script_address := [196], secret_key := [239]
        ext_public_key := [4, 53, 135, 207], ext_secret_key := [4, 53, 131, 148] }
    bech32_hrp := "tn"
    strNetworkID := "signet"
    genesis := { headerHash := 90 }
    vFixedSeeds := []
    fDefaultConsistencyChecks := false
    fRequireStandard := true
    m_is_test_chain := true
    m_is_mockable_chain := false
    checkpointData := { mapCheckpoints := [(0, 90)] }
    m_assumeutxo_data := []
    chainTxData := { nTime := 1598918400, nTxCount := 300, dTxRate := 10 }
    mapHistoricBugs := [] }

/-- Modelled from the spec: regtest builder, see mainParams. -/
def regtestParams : CChainParams :=
  { consensus := { fPowNoRetargeting := true }
    pchMessageStart := [250, 191, 181, 218]
    nDefaultPort := 18445
    nPruneAfterHeight := 1000
    m_assumed_blockchain_size := 0
    m_assumed_chain_state_size := 0
    vSeeds := []
    base58Prefixes :=
      { pubkey_address := [111], script_address := [196], secret_key := [239]
        ext_public_key := [4, 53, 135, 207], ext_secret_key := [4, 53, 131, 148] }
    bech32_hrp := "ncrt"
    strNetworkID := "regtest"
    genesis := { headerHash := 60 }
    vFixedSeeds := []
    fDefaultConsistencyChecks := true
    fRequireStandard := true
    m_is_test_chain := true
    m_is_mockable_chain := true
    checkpointData := { mapCheckpoints := [(0, 60)] }
    m_assumeutxo_data :=
      [(110, { hash_serialized := 1000, nChainTx := 111 }),
       (210, { hash_serialized := 2000, nChainTx := 211 })]
    chainTxData := { nTime := 0, nTxCount := 0, dTxRate := 0 }
    mapHistoricBugs := [] }

/-- Modelled from the spec: CreateChainParams lives in chainparams.cpp.
It builds the configuration for a statically known name; an unknown name
is the UnsupportedNetwork failure (a std::runtime_error in C++),
rendered as none. -/
def CreateChainParams (chain : String) : Option CChainParams :=
  if chain = "main" then some mainParams
  else if chain = "test" then some testParams
  else if chain = "signet" then some signetParams
  else if chain = "regtest" then some regtestParams
  else none

/-- The process-wide registry cell holding the active configuration;
none before any successful selection. -/
abbrev RegistryState := Option CChainParams

/-- The registry cell at process start: nothing selected. -/
def initialRegistry : RegistryState := none

/-- Modelled from the spec: Params lives in chainparams.cpp.  It returns
the currently installed configuration; calling it before any successful
selection is a fatal programming error (an assertion in C++), rendered
as none, never a fallback to a default configuration. -/
def Params (st : RegistryState) : Option CChainParams := st

/-- Modelled from the spec: SelectParams lives in chainparams.cpp.  On a
known name it installs the freshly built configuration, fully replacing
the prior one; on an unknown name it fails with UnsupportedNetwork and
leaves the registry cell untouched. -/
def SelectParams (st : RegistryState) (chain : String) :
    RegistryState × Option ConfigError :=
  match CreateChainParams chain with
  | some p => (some p, none)
  | none => (st, some ConfigError.UnsupportedNetwork)

/-- The five fixed percentile thresholds (spec section 4.6), each as an
exact fraction numerator/denominator of total weight. -/
def percentileFracs : List (Int × Int) := [(1, 10), (1, 4), (1, 2), (3, 4), (9, 10)]

/-- Walk the score list accumulating weight and return the fee rate of
the first entry whose cumulative weight (starting from acc) meets or
exceeds (num/den) times the total weight; the comparison is kept in
integers as num * tw <= den * cumulative. -/
def firstMeeting (num den tw : Int) : List (Int × Int) → Int → Option Int
  | [], _ => none
  | (fee, w) :: rest, acc =>
    if num * tw ≤ den * (acc + w) then some fee
    else firstMeeting num den tw rest (acc + w)

/-- Modelled from the spec: the body of CalculatePercentilesByWeight is
in rpc/blockchain.cpp, outside the slice.  Section 4.6: walk the
ascending-sorted (fee rate, weight) sequence accumulating weight; for
each of the five thresholds output the fee rate of the first entry whose
cumulative weight meets or exceeds the threshold fraction of
total_weight; when total_weight is zero all five outputs are zero.  A
threshold no entry reaches, which the spec leaves unspecified, yields
zero. -/
def CalculatePercentilesByWeight (scores : List (Int × Int)) (total_weight : Int) :
    List Int :=
  if total_weight = 0 then [0, 0, 0, 0, 0]
  else percentileFracs.map
    (fun fr => (firstMeeting fr.1 fr.2 total_weight scores 0).getD 0)

/-- Cumulative weight of the first (i+1) entries of the score list. -/
def cumWeight (scores : List (Int × Int)) (i : Nat) : Int :=
  ((scores.take (i + 1)).map Prod.snd).sum

/-- Modelled from the spec: the progress estimator lives in validation
code outside the slice.  Section 4.5: extrapolate the transaction count
at the tip time backward or forward from the ChainTxData anchor at rate
dTxRate. -/
def extrapolatedEstimate (a : ChainTxData) (tipTime : Int) : ℚ :=
  if tipTime < a.nTime then
    (a.nTxCount : ℚ) - ((a.nTime - tipTime : Int) : ℚ) * a.dTxRate
  else
    (a.nTxCount : ℚ) + ((tipTime - a.nTime : Int) : ℚ) * a.dTxRate

/-- Modelled from the spec: section 4.5; the ratio of the current
cumulative transaction count to the extrapolated estimate, clamped to
the interval from 0 to 1. -/
def estimate_progress (a : ChainTxData) (count : ℚ) (tipTime : Int) : ℚ :=
  max 0 (min 1 (count / extrapolatedEstimate a tipTime))

/-- One invocation of a public const accessor of CChainParams. -/
inductive ReadOp where
  | getConsensus
  | messageStart
  | getDefaultPort
  | getDefaultPortNet (net : Network)
  | genesisBlock
  | defaultConsistencyChecks
  | requireStandard
  | isTestChain
  | isMockableChain
  | pruneAfterHeight
  | assumedBlockchainSize
  | assumedChainStateSize
  | mineBlocksOnDemand
  | networkIDString
  | dnsSeeds
  | bech32HRP
  | fixedSeeds
  | getCheckpoints
  | getAssumeutxo
  | getTxData
  | isHistoricBug (txid : Nat) (nHeight : Nat)
deriving DecidableEq

/-- Result value of one accessor invocation. -/
inductive ReadResult where
  | consensusR (v : ConsensusParams)
  | bytesR (v : List Nat)
  | natR (v : Nat)
  | blockR (v : CBlock)
  | boolR (v : Bool)
  | stringR (v : String)
  | stringsR (v : List String)
  | checkpointsR (v : CCheckpointData)
  | assumeutxoR (v : MapAssumeutxo)
  | txDataR (v : ChainTxData)
  | bugR (v : Option BugType)
deriving DecidableEq

/-- One accessor call as a state transformer on the object: every
accessor in the header is const, so each returns its value together with
the object state after the call. -/
def applyRead (p : CChainParams) (op : ReadOp) : ReadResult × CChainParams :=
  match op with
  | ReadOp.getConsensus => (ReadResult.consensusR p.GetConsensus, p)
  | ReadOp.messageStart => (ReadResult.bytesR p.MessageStart, p)
  | ReadOp.getDefaultPort => (ReadResult.natR p.GetDefaultPort, p)
  | ReadOp.getDefaultPortNet net => (ReadResult.natR (p.GetDefaultPortNet net), p)
  | ReadOp.genesisBlock => (ReadResult.blockR p.GenesisBlock, p)
  | ReadOp.defaultConsistencyChecks => (ReadResult.boolR p.DefaultConsistencyChecks, p)
  | ReadOp.requireStandard => (ReadResult.boolR p.RequireStandard, p)
  | ReadOp.isTestChain => (ReadResult.boolR p.IsTestChain, p)
  | ReadOp.isMockableChain => (ReadResult.boolR p.IsMockableChain, p)
  | ReadOp.pruneAfterHeight => (ReadResult.natR p.PruneAfterHeight, p)
  | ReadOp.assumedBlockchainSize => (ReadResult.natR p.AssumedBlockchainSize, p)
  | ReadOp.assumedChainStateSize => (ReadResult.natR p.AssumedChainStateSize, p)
  | ReadOp.mineBlocksOnDemand => (ReadResult.boolR p.MineBlocksOnDemand, p)
  | ReadOp.networkIDString => (ReadResult.stringR p.NetworkIDString, p)
  | ReadOp.dnsSeeds => (ReadResult.stringsR p.DNSSeeds, p)
  | ReadOp.bech32HRP => (ReadResult.stringR p.Bech32HRP, p)
  | ReadOp.fixedSeeds => (ReadResult.bytesR p.FixedSeeds, p)
  | ReadOp.getCheckpoints => (ReadResult.checkpointsR p.Checkpoints, p)
  | ReadOp.getAssumeutxo => (ReadResult.assumeutxoR p.Assumeutxo, p)
  | ReadOp.getTxData => (ReadResult.txDataR p.TxData, p)
  | ReadOp.isHistoricBug txid nHeight => (ReadResult.bugR (p.IsHistoricBug txid nHeight), p)

/-- Object state after a sequence of accessor calls. -/
def runReads (p : CChainParams) : List ReadOp → CChainParams
  | [] => p
  | op :: rest => runReads (applyRead p op).2 rest

theorem mapFind?_eq_none_of_not_mem {K V : Type} [DecidableEq K] :
    ∀ (m : List (K × V)) (k : K), k ∉ mapKeys m → mapFind? m k = none := by
  intro m
  induction m with
  | nil => intro k _; rfl
  | cons kv rest ih =>
    intro k hk
    obtain ⟨k', v⟩ := kv
    simp only [mapKeys, List.map_cons, List.mem_cons] at hk
    push_neg at hk
    simp only [mapFind?, if_neg hk.1]
    exact ih k (by simpa [mapKeys] using hk.2)

theorem mapFind?_cons_self {K V : Type} [DecidableEq K] (m : List (K × V))
    (k : K) (v : V) : mapFind? ((k, v) :: m) k = some v := by
  simp [mapFind?]

theorem mapFind?_some_mem {K V : Type} [DecidableEq K] :
    ∀ {m : List (K × V)} {k : K} {v : V}, mapFind? m k = some v → (k, v) ∈ m := by
  intro m
  induction m with
  | nil => intro k v h; simp [mapFind?] at h
  | cons kv rest ih =>
    intro k v h
    obtain ⟨k', v'⟩ := kv
    by_cases hk : k = k'
    · subst hk
      rw [mapFind?_cons_self] at h
      cases h
      exact List.mem_cons_self _ _
    · simp only [mapFind?, if_neg hk] at h
      exact List.mem_cons_of_mem _ (ih h)

theorem mapFind?_of_mem_nodup {K V : Type} [DecidableEq K] :
    ∀ {m : List (K × V)} {k : K} {v : V},
      (mapKeys m).Nodup → (k, v) ∈ m → mapFind? m k = some v := by
  intro m
  induction m with
  | nil => intro k v _ h; simp at h
  | cons kv rest ih =>
    intro k v hnd hmem
    obtain ⟨k', v'⟩ := kv
    simp only [mapKeys, List.map_cons, List.nodup_cons] at hnd
    rcases List.mem_cons.mp hmem with heq | htl
    · obtain ⟨hk, hv⟩ := Prod.mk.injEq .. ▸ heq
      subst hk; subst hv
      simp [mapFind?]
    · have hk : k ≠ k' := by
        intro hkk
        subst hkk
        exact hnd.1 (List.mem_map.mpr ⟨(k, v), htl, rfl⟩)
      simp only [mapFind?, if_neg hk]
      exact ih (by simpa [mapKeys] using hnd.2) htl

theorem maxKey_isSome_of_ne_nil {V : Type} :
    ∀ (m : List (Int × V)), m ≠ [] → ∃ mx, maxKey m = some mx := by
  intro m h
  cases m with
  | nil => exact absurd rfl h
  | cons kv rest => exact ⟨_, rfl⟩

theorem maxKey_mem {V : Type} :
    ∀ {m : List (Int × V)} {mx : Int}, maxKey m = some mx → mx ∈ mapKeys m := by
  intro m
  induction m with
  | nil => intro mx h; simp [maxKey] at h
  | cons kv rest ih =>
    intro mx h
    obtain ⟨k, v⟩ := kv
    cases hrec : maxKey rest with
    | none =>
      simp only [maxKey, hrec, Option.some.injEq] at h
      simp only [mapKeys, List.map_cons, List.mem_cons]
      exact Or.inl h.symm
    | some m' =>
      simp only [maxKey, hrec, Option.some.injEq] at h
      rcases max_choice k m' with hc | hc
      · simp only [mapKeys, List.map_cons, List.mem_cons]
        exact Or.inl (h.symm.trans hc)
      · simp only [mapKeys, List.map_cons, List.mem_cons]
        exact Or.inr (h.symm.trans hc ▸ ih hrec)

theorem maxKey_ge {V : Type} :
    ∀ {m : List (Int × V)} {mx : Int}, maxKey m = some mx →
      ∀ k ∈ mapKeys m, k ≤ mx := by
  intro m
  induction m with
  | nil => intro mx _ k hk; simp [mapKeys] at hk
  | cons kv rest ih =>
    intro mx h k hk
    obtain ⟨k', v⟩ := kv
    simp only [mapKeys, List.map_cons, List.mem_cons] at hk
    cases hrec : maxKey rest with
    | none =>
      simp only [maxKey, hrec, Option.some.injEq] at h
      rcases hk with hk | hk
      · exact le_of_eq (hk.trans h)
      · cases rest with
        | nil => simp [mapKeys] at hk
        | cons b l => simp [maxKey] at hrec
    | some m' =>
      simp only [maxKey, hrec, Option.some.injEq] at h
      rw [← h]
      rcases hk with hk | hk
      · exact hk ▸ le_max_left k' m'
      · exact le_trans (ih hrec k hk) (le_max_right k' m')

theorem addBug_present_noop (q : CChainParams) (nHeight txid : Nat) (ty : BugType)
    (h : (mapFind? q.mapHistoricBugs (nHeight, txid)).isSome) :
    q.addBug nHeight txid ty = q := by
  unfold CChainParams.addBug
  cases hf : mapFind? q.mapHistoricBugs (nHeight, txid) with
  | none => rw [hf] at h; simp at h
  | some t => simp only [mapInsert, hf]

theorem foldl_addBug_noop (nHeight txid : Nat) :
    ∀ (rest : List BugType) (q : CChainParams),
      (mapFind? q.mapHistoricBugs (nHeight, txid)).isSome →
      rest.foldl (fun r ty' => r.addBug nHeight txid ty') q = q := by
  intro rest
  induction rest with
  | nil => intro q _; rfl
  | cons t l ih =>
    intro q h
    simp only [List.foldl_cons]
    rw [addBug_present_noop q nHeight txid t h]
    exact ih q h

/-- C1: for every network configuration the consensus-exception lookup
IsHistoricBug returns none for every (height, txid) pair absent from
that configuration's exception table; for every pair present it returns
exactly the recorded BugType; a result is produced only on an exact
match of both height and txid, so the result is drawn from the
configuration's own table and never from another network's. -/
theorem claim_C1_historic_bug_exact_lookup
    (p : CChainParams) (nHeight txid : Nat) (ty : BugType) :
    ((nHeight, txid) ∉ mapKeys p.mapHistoricBugs →
      p.IsHistoricBug txid nHeight = none) ∧
    (p.IsHistoricBug txid nHeight = some ty →
      ((nHeight, txid), ty) ∈ p.mapHistoricBugs) ∧
    ((mapKeys p.mapHistoricBugs).Nodup →
      ((nHeight, txid), ty) ∈ p.mapHistoricBugs →
      p.IsHistoricBug txid nHeight = some ty) :=
  ⟨fun h => mapFind?_eq_none_of_not_mem _ _ h,
   fun h => mapFind?_some_mem h,
   fun hnd hm => mapFind?_of_mem_nodup hnd hm⟩

theorem claim_C1_witness :
    mainParams.IsHistoricBug 102 139872 = some BugType.BUG_IN_UTXO ∧
    mainParams.IsHistoricBug 102 139873 = none :=
  ⟨(claim_C1_historic_bug_exact_lookup mainParams 139872 102 BugType.BUG_IN_UTXO).2.2
      (by decide) (by decide),
   (claim_C1_historic_bug_exact_lookup mainParams 139873 102 BugType.BUG_IN_UTXO).1
      (by decide)⟩

/-- C2: validate_against_registry succeeds exactly when the assumeutxo
table has an entry at exactly metadata.height whose expected serialized
hash equals metadata.hash; in every other case it fails with
UntrustedSnapshot, and no other outcome exists (no advisory mode). -/
theorem claim_C2_validate_against_registry_iff
    (m : SnapshotMetadata) (reg : MapAssumeutxo) :
    (validate_against_registry m reg = Except.ok () ↔
      ∃ e, mapFind? reg m.height = some e ∧ e.hash_serialized = m.hash) ∧
    (validate_against_registry m reg = Except.ok () ∨
      validate_against_registry m reg =
        Except.error SnapshotError.UntrustedSnapshot) := by
  unfold validate_against_registry
  cases hf : mapFind? reg m.height with
  | none => simp
  | some e =>
    by_cases hh : e.hash_serialized = m.hash
    · simp [hh]
    · simp [hh]

theorem claim_C2_witness :
    validate_against_registry ⟨110, 1000⟩ regtestParams.m_assumeutxo_data =
      Except.ok () ∧
    validate_against_registry ⟨110, 1001⟩ regtestParams.m_assumeutxo_data =
      Except.error SnapshotError.UntrustedSnapshot := by
  constructor
  · exact (claim_C2_validate_against_registry_iff ⟨110, 1000⟩
      regtestParams.m_assumeutxo_data).1.mpr ⟨⟨1000, 111⟩, by decide, rfl⟩
  · have h := (claim_C2_validate_against_registry_iff ⟨110, 1001⟩
      regtestParams.m_assumeutxo_data).2
    rcases h with h | h
    · exfalso
      have := (claim_C2_validate_against_registry_iff ⟨110, 1001⟩
        regtestParams.m_assumeutxo_data).1.mp h
      obtain ⟨e, he, hh⟩ := this
      have : e = ⟨1000, 111⟩ := by
        have hf : mapFind? regtestParams.m_assumeutxo_data (110 : Int) =
            some ⟨1000, 111⟩ := by decide
        rw [hf] at he
        exact (Option.some.injEq _ _ ▸ he).symm
      rw [this] at hh
      exact absurd hh (by decide)
    · exact h

/-- C8: after construction no public operation modifies the checkpoint
table, the assumeutxo table or the consensus-exception table: every
sequence of const accessor calls leaves all three exactly as fixed at
construction. -/
theorem claim_C8_tables_immutable (p : CChainParams) (ops : List ReadOp) :
    (runReads p ops).checkpointData = p.checkpointData ∧
    (runReads p ops).m_assumeutxo_data = p.m_assumeutxo_data ∧
    (runReads p ops).mapHistoricBugs = p.mapHistoricBugs := by
  have h : runReads p ops = p := by
    induction ops generalizing p with
    | nil => rfl
    | cons op rest ih =>
      have hop : (applyRead p op).2 = p := by cases op <;> rfl
      simp only [runReads, hop]
      exact ih p
  exact ⟨by rw [h], by rw [h], by rw [h]⟩

/-- C9: when addBug is invoked repeatedly with the same (height, txid)
key the exception table is unchanged by every call after the first,
because std::map::insert does not overwrite; IsHistoricBug then reports
the BugType supplied by the first call for that key. -/
theorem claim_C9_addBug_first_insert_wins
    (p : CChainParams) (nHeight txid : Nat) (ty : BugType) (rest : List BugType) :
    mapFind? p.mapHistoricBugs (nHeight, txid) = none →
    ((rest.foldl (fun q ty' => q.addBug nHeight txid ty')
        (p.addBug nHeight txid ty)).mapHistoricBugs =
      (p.addBug nHeight txid ty).mapHistoricBugs) ∧
    (rest.foldl (fun q ty' => q.addBug nHeight txid ty')
        (p.addBug nHeight txid ty)).IsHistoricBug txid nHeight = some ty := by
  intro hnone
  have hcons : (p.addBug nHeight txid ty).mapHistoricBugs =
      ((nHeight, txid), ty) :: p.mapHistoricBugs := by
    show mapInsert p.mapHistoricBugs (nHeight, txid) ty = _
    simp only [mapInsert, hnone]
  have hsome : (mapFind? (p.addBug nHeight txid ty).mapHistoricBugs
      (nHeight, txid)).isSome := by
    rw [hcons, mapFind?_cons_self]
    rfl
  have hfold := foldl_addBug_noop nHeight txid rest (p.addBug nHeight txid ty) hsome
  refine ⟨by rw [hfold], ?_⟩
  rw [hfold]
  show mapFind? (p.addBug nHeight txid ty).mapHistoricBugs (nHeight, txid) = some ty
  rw [hcons]
  exact mapFind?_cons_self _ _ _

theorem claim_C9_witness :
    (([BugType.BUG_FULLY_APPLY, BugType.BUG_IN_UTXO].foldl
        (fun q ty' => q.addBug 7 42 ty')
        (testParams.addBug 7 42 BugType.BUG_FULLY_IGNORE)).mapHistoricBugs =
      (testParams.addBug 7 42 BugType.BUG_FULLY_IGNORE).mapHistoricBugs) ∧
    ([BugType.BUG_FULLY_APPLY, BugType.BUG_IN_UTXO].foldl
        (fun q ty' => q.addBug 7 42 ty')
        (testParams.addBug 7 42 BugType.BUG_FULLY_IGNORE)).IsHistoricBug 42 7 =
      some BugType.BUG_FULLY_IGNORE :=
  claim_C9_addBug_first_insert_wins testParams 7 42 BugType.BUG_FULLY_IGNORE
    [BugType.BUG_FULLY_APPLY, BugType.BUG_IN_UTXO] (by decide)

/-- C10: GetDefaultPort(Network) returns the I2P SAM 3.1 port constant
for NET_I2P and the configured default port for every other network
kind; the string overload applies the per-network override exactly when
the address parses as a special address, and otherwise returns the
configured default port. -/
theorem claim_C10_default_port_override
    (p : CChainParams) (net : Network) (setSpecial : String → Option Network)
    (addr : String) (n : Network) :
    (p.GetDefaultPortNet Network.NET_I2P = I2P_SAM31_PORT) ∧
    (net ≠ Network.NET_I2P → p.GetDefaultPortNet net = p.GetDefaultPort) ∧
    (setSpecial addr = some n →
      p.GetDefaultPortAddr setSpecial addr = p.GetDefaultPortNet n) ∧
    (setSpecial addr = none →
      p.GetDefaultPortAddr setSpecial addr = p.GetDefaultPort) := by
  refine ⟨rfl, fun h => ?_, fun h => ?_, fun h => ?_⟩
  · simp [CChainParams.GetDefaultPortNet, h]
  · simp [CChainParams.GetDefaultPortAddr, h]
  · simp [CChainParams.GetDefaultPortAddr, h]

theorem claim_C10_witness :
    mainParams.GetDefaultPortNet Network.NET_I2P = I2P_SAM31_PORT ∧
    mainParams.GetDefaultPortNet Network.NET_IPV4 = mainParams.GetDefaultPort ∧
    mainParams.GetDefaultPortAddr (fun _ => some Network.NET_I2P) "a.b32.i2p" =
      mainParams.GetDefaultPortNet Network.NET_I2P ∧
    mainParams.GetDefaultPortAddr (fun _ => none) "203.0.113.1" =
      mainParams.GetDefaultPort := by
  have h := claim_C10_default_port_override mainParams Network.NET_IPV4
    (fun _ => some Network.NET_I2P) "a.b32.i2p" Network.NET_I2P
  have h' := claim_C10_default_port_override mainParams Network.NET_IPV4
    (fun _ => none) "203.0.113.1" Network.NET_I2P
  exact ⟨h.1, h.2.1 (by decide), h.2.2.1 rfl, h'.2.2.2 rfl⟩

theorem CreateChainParams_eq_none_of_unknown (n : String)
    (h : n ∉ knownNetworks) : CreateChainParams n = none := by
  simp only [knownNetworks, List.mem_cons, List.not_mem_nil, or_false,
    not_or] at h
  obtain ⟨h1, h2, h3, h4⟩ := h
  simp [CreateChainParams, h1, h2, h3, h4]

theorem foldl_select_unknown :
    ∀ (names : List String) (st : RegistryState),
      (∀ n ∈ names, n ∉ knownNetworks) →
      names.foldl (fun s n => (SelectParams s n).1) st = st := by
  intro names
  induction names with
  | nil => intro st _; rfl
  | cons n l ih =>
    intro st h
    simp only [List.foldl_cons]
    have hn : (SelectParams st n).1 = st := by
      unfold SelectParams
      rw [CreateChainParams_eq_none_of_unknown n (h n (List.mem_cons_self n l))]
    rw [hn]
    exact ih st (fun n' hn' => h n' (List.mem_cons_of_mem n hn'))

theorem createChainParams_checkpoints_ne_nil (name : String) (q : CChainParams)
    (hc : CreateChainParams name = some q) :
    q.checkpointData.mapCheckpoints ≠ [] := by
  unfold CreateChainParams at hc
  split_ifs at hc
  all_goals injection hc with h
  all_goals subst h
  all_goals decide

/-- C3: for every non-empty checkpoint table GetHeight returns the
largest height key present; on the empty table it is undefined (none);
and for every statically defined network, select followed by active
yields a configuration whose checkpoint height is the maximum key of
its checkpoint table. -/
theorem claim_C3_checkpoint_height_is_max
    (cd : CCheckpointData) (st : RegistryState) (name : String) (p : CChainParams) :
    (cd.mapCheckpoints ≠ [] →
      ∃ mx, cd.GetHeight = some mx ∧ mx ∈ mapKeys cd.mapCheckpoints ∧
        ∀ k ∈ mapKeys cd.mapCheckpoints, k ≤ mx) ∧
    (cd.mapCheckpoints = [] → cd.GetHeight = none) ∧
    ((SelectParams st name).2 = none →
      Params (SelectParams st name).1 = some p →
      ∃ mx, p.checkpointData.GetHeight = some mx ∧
        mx ∈ mapKeys p.checkpointData.mapCheckpoints ∧
        ∀ k ∈ mapKeys p.checkpointData.mapCheckpoints, k ≤ mx) := by
  have general : ∀ (cd' : CCheckpointData), cd'.mapCheckpoints ≠ [] →
      ∃ mx, cd'.GetHeight = some mx ∧ mx ∈ mapKeys cd'.mapCheckpoints ∧
        ∀ k ∈ mapKeys cd'.mapCheckpoints, k ≤ mx := by
    intro cd' hne
    obtain ⟨mx, hmx⟩ := maxKey_isSome_of_ne_nil cd'.mapCheckpoints hne
    exact ⟨mx, hmx, maxKey_mem hmx, maxKey_ge hmx⟩
  refine ⟨general cd, fun h => ?_, fun hsel hpar => ?_⟩
  · show maxKey cd.mapCheckpoints = none
    rw [h]
    rfl
  · cases hc : CreateChainParams name with
    | none =>
      unfold SelectParams at hsel
      rw [hc] at hsel
      simp at hsel
    | some q =>
      unfold SelectParams at hpar
      rw [hc] at hpar
      simp only [Params, Option.some.injEq] at hpar
      rw [← hpar]
      exact general q.checkpointData (createChainParams_checkpoints_ne_nil name q hc)

theorem claim_C3_witness :
    mainParams.checkpointData.GetHeight = some 19200 := by
  obtain ⟨mx, hmx, hmem, hub⟩ :=
    (claim_C3_checkpoint_height_is_max mainParams.checkpointData initialRegistry
      "main" mainParams).1 (by decide)
  have h1 : (19200 : Int) ≤ mx := hub 19200 (by decide)
  have h2 : mx = 0 ∨ mx = 2016 ∨ mx = 19200 := by
    simpa [mainParams, mapKeys] using hmem
  have h3 : mx = 19200 := by omega
  rw [hmx, h3]

/-- C4: selecting an unknown network name fails with UnsupportedNetwork
and installs nothing (the registry cell is unchanged); the registry
starts with no active configuration, and a run consisting only of
failed selections still has none, so reading the active configuration
before any successful selection is the fatal case, never a fallback to
a default. -/
theorem claim_C4_unknown_network_rejected
    (st : RegistryState) (name : String) (names : List String) :
    (name ∉ knownNetworks →
      SelectParams st name = (st, some ConfigError.UnsupportedNetwork)) ∧
    Params initialRegistry = none ∧
    ((∀ n ∈ names, n ∉ knownNetworks) →
      Params (names.foldl (fun s n => (SelectParams s n).1) initialRegistry) =
        none) := by
  refine ⟨fun h => ?_, rfl, fun h => ?_⟩
  · unfold SelectParams
    rw [CreateChainParams_eq_none_of_unknown name h]
  · rw [foldl_select_unknown names initialRegistry h]
    rfl

theorem claim_C4_witness :
    SelectParams initialRegistry "mainnet" =
      (initialRegistry, some ConfigError.UnsupportedNetwork) ∧
    Params ((["bitcoin", "testnet"]).foldl
      (fun s n => (SelectParams s n).1) initialRegistry) = none := by
  have h := claim_C4_unknown_network_rejected initialRegistry "mainnet"
    ["bitcoin", "testnet"]
  exact ⟨h.1 (by decide), h.2.2 (by decide)⟩

/-- C7: re-selecting a network fully replaces the prior configuration:
the newly installed configuration is exactly the freshly built one, and
an exception lookup that succeeded against the old configuration
returns none against the new one unless the new network's own table
contains the same key. -/
theorem claim_C7_reselect_fully_replaces
    (pOld : CChainParams) (name : String) (pNew : CChainParams)
    (nHeight txid : Nat) (ty : BugType) :
    CreateChainParams name = some pNew →
    (Params (SelectParams (some pOld) name).1 = some pNew ∧
     (pOld.IsHistoricBug txid nHeight = some ty →
      (nHeight, txid) ∉ mapKeys pNew.mapHistoricBugs →
      pNew.IsHistoricBug txid nHeight = none)) := by
  intro hc
  constructor
  · unfold SelectParams
    rw [hc]
    rfl
  · intro _ hnot
    exact mapFind?_eq_none_of_not_mem _ _ hnot

theorem claim_C7_witness :
    Params (SelectParams (some mainParams) "test").1 = some testParams ∧
    testParams.IsHistoricBug 102 139872 = none := by
  have h := claim_C7_reselect_fully_replaces mainParams "test" testParams
    139872 102 BugType.BUG_IN_UTXO (by decide)
  exact ⟨h.1, h.2 (by decide) (by decide)⟩

theorem cumWeight_cons_zero (fee w : Int) (rest : List (Int × Int)) :
    cumWeight ((fee, w) :: rest) 0 = w := by
  simp [cumWeight]

theorem cumWeight_cons_succ (fee w : Int) (rest : List (Int × Int)) (j : Nat) :
    cumWeight ((fee, w) :: rest) (j + 1) = w + cumWeight rest j := by
  simp [cumWeight, List.take_succ_cons]

theorem firstMeeting_finds_least (num den tw : Int) :
    ∀ (scores : List (Int × Int)) (acc : Int) (i : Nat) (hi : i < scores.length),
      num * tw ≤ den * (acc + cumWeight scores i) →
      (∀ j, j < i → den * (acc + cumWeight scores j) < num * tw) →
      firstMeeting num den tw scores acc = some (scores.get ⟨i, hi⟩).1 := by
  intro scores
  induction scores with
  | nil => intro acc i hi; simp at hi
  | cons hd rest ih =>
    intro acc i hi hmeet hless
    obtain ⟨fee, w⟩ := hd
    cases i with
    | zero =>
      rw [cumWeight_cons_zero] at hmeet
      simp only [firstMeeting, if_pos hmeet]
      rfl
    | succ i' =>
      have h0 : den * (acc + w) < num * tw := by
        have := hless 0 (Nat.succ_pos i')
        rwa [cumWeight_cons_zero] at this
      have hnotle : ¬ num * tw ≤ den * (acc + w) := not_le.mpr h0
      simp only [firstMeeting, if_neg hnotle]
      have hi' : i' < rest.length := by
        simp only [List.length_cons] at hi
        exact Nat.lt_of_succ_lt_succ hi
      have hmeet' : num * tw ≤ den * ((acc + w) + cumWeight rest i') := by
        rw [cumWeight_cons_succ, ← add_assoc] at hmeet
        exact hmeet
      have hless' : ∀ j, j < i' →
          den * ((acc + w) + cumWeight rest j) < num * tw := by
        intro j hj
        have := hless (j + 1) (Nat.succ_lt_succ hj)
        rw [cumWeight_cons_succ, ← add_assoc] at this
        exact this
      rw [ih (acc + w) i' hi' hmeet' hless']
      rfl

/-- C5: the percentile calculation, for the five fixed thresholds
(10th, 25th, 50th, 75th, 90th by cumulative weight), outputs the fee
rate of the first entry whose cumulative weight meets or exceeds the
threshold fraction of total_weight; at total_weight zero all five
outputs are zero; and on (1,10),(2,10),(3,10),(4,10),(5,10) with total
weight 50 the five outputs are exactly 1,2,3,4,5. -/
theorem claim_C5_percentiles_by_weight
    (scores : List (Int × Int)) (tw : Int) (j : Nat) (fr : Int × Int)
    (i : Nat) (hi : i < scores.length) :
    (CalculatePercentilesByWeight scores 0 = [0, 0, 0, 0, 0]) ∧
    (tw ≠ 0 → percentileFracs[j]? = some fr →
      fr.1 * tw ≤ fr.2 * cumWeight scores i →
      (∀ j', j' < i → fr.2 * cumWeight scores j' < fr.1 * tw) →
      (CalculatePercentilesByWeight scores tw)[j]? =
        some (scores.get ⟨i, hi⟩).1) ∧
    (CalculatePercentilesByWeight
        [(1, 10), (2, 10), (3, 10), (4, 10), (5, 10)] 50 = [1, 2, 3, 4, 5]) := by
  refine ⟨by simp [CalculatePercentilesByWeight], fun htw hfr hmeet hless => ?_,
    by decide⟩
  unfold CalculatePercentilesByWeight
  rw [if_neg htw, List.getElem?_map, hfr]
  have hwalk := firstMeeting_finds_least fr.1 fr.2 tw scores 0 i hi
    (by simpa using hmeet) (fun j' hj' => by simpa using hless j' hj')
  simp only [Option.map_some', hwalk, Option.getD_some]

theorem claim_C5_witness :
    (CalculatePercentilesByWeight
        [(1, 10), (2, 10), (3, 10), (4, 10), (5, 10)] 50)[2]? = some 3 := by
  refine (claim_C5_percentiles_by_weight
    [(1, 10), (2, 10), (3, 10), (4, 10), (5, 10)] 50 2 (1, 2) 2
    (by decide)).2.1 (by decide) (by decide) (by decide) ?_
  intro j' hj'
  interval_cases j' <;> decide

/-- C6: for a fixed anchor and tip time, estimate_progress is
monotonically non-decreasing in the current cumulative transaction
count (for a positive extrapolated estimate), its result always lies in
the interval from 0 to 1, it is exactly 1 once the count meets or
exceeds the extrapolated estimate, and it is 0 at count zero under
forward extrapolation with a positive estimate. -/
theorem claim_C6_progress_estimator
    (a : ChainTxData) (tipTime : Int) (c c' : ℚ) :
    (0 < extrapolatedEstimate a tipTime → c ≤ c' →
      estimate_progress a c tipTime ≤ estimate_progress a c' tipTime) ∧
    (0 ≤ estimate_progress a c tipTime ∧ estimate_progress a c tipTime ≤ 1) ∧
    (0 < extrapolatedEstimate a tipTime → extrapolatedEstimate a tipTime ≤ c →
      estimate_progress a c tipTime = 1) ∧
    (a.nTime ≤ tipTime → 0 < extrapolatedEstimate a tipTime →
      estimate_progress a 0 tipTime = 0) := by
  refine ⟨fun hpos hcc => ?_,
    ⟨le_max_left 0 _, max_le (by norm_num) (min_le_left 1 _)⟩,
    fun hpos hge => ?_, fun _ _ => ?_⟩
  · unfold estimate_progress
    have hdiv : c / extrapolatedEstimate a tipTime ≤
        c' / extrapolatedEstimate a tipTime := (div_le_div_iff_of_pos_right hpos).mpr hcc
    exact max_le_max le_rfl (min_le_min le_rfl hdiv)
  · unfold estimate_progress
    have h1 : (1 : ℚ) ≤ c / extrapolatedEstimate a tipTime :=
      (one_le_div hpos).mpr hge
    rw [min_eq_left h1, max_eq_right (by norm_num : (0 : ℚ) ≤ 1)]
  · unfold estimate_progress
    rw [zero_div]
    norm_num

theorem claim_C6_witness :
    estimate_progress ⟨0, 100, 2⟩ 0 50 = 0 ∧
    estimate_progress ⟨0, 100, 2⟩ 300 50 = 1 := by
  constructor
  · exact (claim_C6_progress_estimator ⟨0, 100, 2⟩ 50 0 0).2.2.2 (by norm_num)
      (by norm_num [extrapolatedEstimate])
  · exact (claim_C6_progress_estimator ⟨0, 100, 2⟩ 50 300 300).2.2.1
      (by norm_num [extrapolatedEstimate]) (by norm_num [extrapolatedEstimate])

end Namecoin
